import Mathlib

/-!
# EcoLens Advanced LCA Intelligence Platform — verification development

Shallow embedding of the LCA calculation engine
(`src/code/calculator.py`, `src/code/database.py`,
`src/modules/uncertainty.py`) over exact rational arithmetic (`ℚ` in
place of Python floats), together with theorems settling the frozen
claims about the engine.

Conventions:
* Python dicts with a fixed key set become structures; optional keys read
  with `dict.get(key, default)` become `Option` fields read with `getD`,
  or plain fields when the default is the only interesting value.
* String-keyed dicts built incrementally (allocation factors, modal mix)
  become association lists with Python's insert-or-replace semantics.
* The wall-clock timestamp and the uuid fallback for a missing product id
  are external effects and are not modelled; the product id/name are
  taken as caller-supplied fields.
* `numpy` random draws are modelled by an abstract stream of
  standard-normal draws indexed by (seed, position); `rng.normal(m, s)`
  is `m + s * draw` and advances the position by one.
-/

namespace EcoLens

/-- A material entry of the product specification
(`materials` list items in `calculator.py`). -/
structure MaterialEntry where
  material_id : String
  mass_kg : ℚ
  recycled_content : ℚ
deriving Repr, DecidableEq

/-- The fields of the record returned by
`AdvancedLCADatabase.get_material` (`database.py`, lines 152-166) that
carry numeric data used downstream. -/
structure MaterialData where
  carbon_footprint : ℚ
  carbon_std : ℚ
  embodied_energy : ℚ
  embodied_energy_std : ℚ
  water_use : ℚ
  recyclability : ℚ
  recycled_potential : ℚ
  price : ℚ
  strength : ℚ
deriving Repr, DecidableEq

/-- A regional grid record as stored in the `regional_factors` table. -/
structure RegionalFactor where
  carbon_gCO2e_kWh : ℚ
  renewable_share : ℚ
deriving Repr, DecidableEq

/-- The database interface consumed by the engine: `get_material` and
the regional-factor lookup used by the manufacturing phase. -/
structure Database where
  get_material : String → Option MaterialData
  regional_factors : String → Option RegionalFactor

/-- `allocation_method` values recognised by `_calculate_material_phase`
(the strings `mass` and `economic`; anything else falls through to an
allocation factor of 1). -/
inductive AllocationMethod where
  | mass
  | economic
  | other
deriving Repr, DecidableEq

/-- A manufacturing process entry (`manufacturing_processes` items). -/
structure ProcessEntry where
  process : String
  efficiency : ℚ
  technology_level : String
deriving Repr, DecidableEq

/-- A transport leg (`transport_legs` items). -/
structure TransportLeg where
  mode : String
  distance_km : ℚ
  load_factor : ℚ
deriving Repr, DecidableEq

/-- A use scenario (`use_scenarios` items). -/
structure UseScenario where
  scenario_type : String
  frequency_per_year : ℚ
  energy_kWh_per_use : ℚ
  water_L_per_use : ℚ
  consider_grid_decarbonization : Bool
deriving Repr, DecidableEq

/-- The end-of-life scenario dict (`eol_scenario`). -/
structure EolScenario where
  recycling_rate : ℚ
  incineration_rate : ℚ
  landfill_rate : ℚ
  energy_recovery_efficiency : ℚ
deriving Repr, DecidableEq

/-- Default end-of-life scenario used when the specification carries
none (`calculator.py`, lines 383-388). -/
def defaultEolScenario : EolScenario :=
  { recycling_rate := 7/10
    incineration_rate := 2/10
    landfill_rate := 1/10
    energy_recovery_efficiency := 8/10 }

/-- The product specification consumed by
`calculate_comprehensive_lca`.  Fields mirror the dict keys the engine
reads; `eol_scenario` is optional because the engine substitutes
`defaultEolScenario` for a missing key. -/
structure ProductSpec where
  product_id : String
  product_name : String
  materials : List MaterialEntry
  allocation_method : AllocationMethod
  manufacturing_processes : List ProcessEntry
  manufacturing_region : String
  transport_legs : List TransportLeg
  use_scenarios : List UseScenario
  lifetime_years : ℕ
  maintenance : Bool
  eol_scenario : Option EolScenario
deriving Repr, DecidableEq

/-- Total mass of the materials list,
`sum(m.get('mass_kg', 0) for m in materials)` — computed identically by
the material, manufacturing, transport and end-of-life phases, over the
FULL materials list (including entries whose id has no catalog entry). -/
def totalMaterialMass (materials : List MaterialEntry) : ℚ :=
  (materials.map (fun m => m.mass_kg)).sum

/-- Python dict assignment `d[k] = v`: replace the value in place if the
key exists, otherwise append the new pair. -/
def dictInsert (d : List (String × ℚ)) (k : String) (v : ℚ) : List (String × ℚ) :=
  if d.any (fun p => p.1 = k) then
    d.map (fun p => if p.1 = k then (k, v) else p)
  else
    d ++ [(k, v)]

/-- Python dict lookup `d.get(k, 0)`. -/
def dictGet (d : List (String × ℚ)) (k : String) : ℚ :=
  ((d.find? (fun p => p.1 = k)).map (fun p => p.2)).getD 0

/-- Sum of a dict's values. -/
def dictSum (d : List (String × ℚ)) : ℚ :=
  (d.map (fun p => p.2)).sum

/-- Per-material detail record appended to `materials_detail`. -/
structure MaterialDetail where
  material : String
  mass_kg : ℚ
  recycled_content : ℚ
  carbon_allocated : ℚ
  energy_allocated : ℚ
  allocation_factor : ℚ
deriving Repr, DecidableEq

/-- Result dict of `_calculate_material_phase`. -/
structure MaterialPhaseResult where
  mass_kg : ℚ
  carbon_kgCO2e : ℚ
  carbon_allocated : List (String × ℚ)
  energy_MJ : ℚ
  water_L : ℚ
  cost_usd : ℚ
  materials_detail : List MaterialDetail
  allocation_factors : List (String × ℚ)
deriving Repr, DecidableEq

/-- The zero-initialised accumulator of `_calculate_material_phase`
(`calculator.py`, lines 97-106). -/
def initMaterialPhaseResult : MaterialPhaseResult :=
  { mass_kg := 0
    carbon_kgCO2e := 0
    carbon_allocated := []
    energy_MJ := 0
    water_L := 0
    cost_usd := 0
    materials_detail := []
    allocation_factors := [] }

/-- Allocation factor of one material (`calculator.py`, lines 120-130).
For `economic` mode the Python code reads
`self.db.get_material(id).get('price', 1)` inside the denominator; a
found record always carries its price, and the `getD 1` fallback mirrors
the default of that `.get` (an unknown id would actually crash Python
with an attribute error on `None`; no claim exercises economic mode).
Rational division by zero is 0 in Lean where Python would raise. -/
def allocationFactor (db : Database) (method : AllocationMethod)
    (materials : List MaterialEntry) (total_mass : ℚ)
    (mass : ℚ) (mat_data : MaterialData) : ℚ :=
  match method with
  | .mass => if total_mass > 0 then mass / total_mass else 0
  | .economic =>
      (mass * mat_data.price) /
        (materials.map (fun m =>
          m.mass_kg * (((db.get_material m.material_id).map
            (fun d => d.price)).getD 1))).sum
  | .other => 1

/-- One iteration of the materials loop in `_calculate_material_phase`
(`calculator.py`, lines 110-162): unknown ids are skipped (`continue`),
known ids accumulate allocated impacts.  Note the recycled-content
handling: `recycled_factor = recycled_content * 0.3`, and the energy and
water bases multiply this already-discounted factor by a further 0.4
resp. 0.2, while cost carries no recycled adjustment at all. -/
def materialPhaseStep (db : Database) (method : AllocationMethod)
    (materials : List MaterialEntry) (total_mass : ℚ)
    (acc : MaterialPhaseResult) (mat : MaterialEntry) : MaterialPhaseResult :=
  match db.get_material mat.material_id with
  | none => acc
  | some mat_data =>
      let af := allocationFactor db method materials total_mass mat.mass_kg mat_data
      let virgin_factor := 1 - mat.recycled_content
      let recycled_factor := mat.recycled_content * (3/10)
      let carbon_base := mat.mass_kg * mat_data.carbon_footprint *
        (virgin_factor + recycled_factor)
      let energy_base := mat.mass_kg * mat_data.embodied_energy *
        (virgin_factor + recycled_factor * (4/10))
      let water_base := mat.mass_kg * mat_data.water_use *
        (virgin_factor + recycled_factor * (2/10))
      let carbon_alloc := carbon_base * af
      let energy_alloc := energy_base * af
      let water_alloc := water_base * af
      { mass_kg := acc.mass_kg + mat.mass_kg
        carbon_kgCO2e := acc.carbon_kgCO2e + carbon_alloc
        carbon_allocated := dictInsert acc.carbon_allocated mat.material_id carbon_alloc
        energy_MJ := acc.energy_MJ + energy_alloc
        water_L := acc.water_L + water_alloc
        cost_usd := acc.cost_usd + mat.mass_kg * mat_data.price * af
        materials_detail := acc.materials_detail ++
          [{ material := mat.material_id
             mass_kg := mat.mass_kg
             recycled_content := mat.recycled_content
             carbon_allocated := carbon_alloc
             energy_allocated := energy_alloc
             allocation_factor := af }]
        allocation_factors := dictInsert acc.allocation_factors mat.material_id af }

/-- `_calculate_material_phase` (`calculator.py`, lines 91-164). -/
def calcMaterialPhase (db : Database) (spec : ProductSpec) : MaterialPhaseResult :=
  let total_mass := totalMaterialMass spec.materials
  spec.materials.foldl
    (materialPhaseStep db spec.allocation_method spec.materials total_mass)
    initMaterialPhaseResult

/-- Technology-level multipliers of `_calculate_manufacturing_phase`
(`calculator.py`, lines 189-196); unrecognised levels fall back to 1. -/
def techFactor (technology_level : String) : ℚ :=
  if technology_level = "basic" then 12/10
  else if technology_level = "average" then 1
  else if technology_level = "advanced" then 8/10
  else if technology_level = "state_of_art" then 6/10
  else 1

/-- `_get_process_energy` (`calculator.py`, lines 227-238). -/
def getProcessEnergy (process_name : String) : ℚ :=
  if process_name = "Injection Molding" then 12/10
  else if process_name = "Blow Molding" then 9/10
  else if process_name = "Thermoforming" then 8/10
  else if process_name = "Extrusion" then 7/10
  else if process_name = "Casting" then 15/10
  else if process_name = "CNC Machining" then 3
  else if process_name = "Assembly" then 2/10
  else 1

/-- Regional grid intensity used by the manufacturing phase:
`self.db.get_regional_factors().get(region, {'carbon_gCO2e_kWh': 475})
['carbon_gCO2e_kWh']` (`calculator.py`, lines 203-205). -/
def regionalCarbon (db : Database) (region : String) : ℚ :=
  (((db.regional_factors region).map
    (fun r => r.carbon_gCO2e_kWh))).getD 475

/-- Per-process detail record of the manufacturing phase. -/
structure ProcessDetail where
  process : String
  efficiency : ℚ
  technology : String
  carbon : ℚ
  energy : ℚ
deriving Repr, DecidableEq

/-- Result dict of `_calculate_manufacturing_phase`. -/
structure ManufacturingPhaseResult where
  processes : List ProcessDetail
  carbon_kgCO2e : ℚ
  energy_MJ : ℚ
  water_L : ℚ
  scrap_kg : ℚ
  efficiency_score : ℚ
deriving Repr, DecidableEq

/-- One iteration of the processes loop
(`calculator.py`, lines 183-218).  The per-step carbon is a single
conversion of the drawn energy through the regional grid intensity:
`carbon = actual_energy * 3.6 * regional_factor / 1000`; the engine
never consults a process-specific direct carbon factor. -/
def manufacturingStep (db : Database) (region : String) (total_mass : ℚ)
    (acc : ManufacturingPhaseResult) (proc : ProcessEntry) : ManufacturingPhaseResult :=
  let tech_factor := techFactor proc.technology_level
  let base_energy := total_mass * getProcessEnergy proc.process
  let actual_energy := base_energy / proc.efficiency * tech_factor
  let regional_factor := regionalCarbon db region
  let carbon := actual_energy * (36/10) * regional_factor / 1000
  { acc with
      carbon_kgCO2e := acc.carbon_kgCO2e + carbon
      energy_MJ := acc.energy_MJ + actual_energy * (36/10)
      processes := acc.processes ++
        [{ process := proc.process
           efficiency := proc.efficiency
           technology := proc.technology_level
           carbon := carbon
           energy := actual_energy * (36/10) }] }

/-- `_calculate_manufacturing_phase` (`calculator.py`, lines 166-225):
fold over the process entries, then fill the efficiency score with the
mean of the declared efficiencies when any process exists. -/
def calcManufacturingPhase (db : Database) (spec : ProductSpec) : ManufacturingPhaseResult :=
  let total_mass := totalMaterialMass spec.materials
  let base : ManufacturingPhaseResult :=
    { processes := []
      carbon_kgCO2e := 0
      energy_MJ := 0
      water_L := 0
      scrap_kg := 0
      efficiency_score := 0 }
  let folded := spec.manufacturing_processes.foldl
    (manufacturingStep db spec.manufacturing_region total_mass) base
  if folded.processes = [] then folded
  else
    { folded with
        efficiency_score :=
          (folded.processes.map (fun p => p.efficiency)).sum /
            (folded.processes.length : ℚ) }

/-- `_get_transport_data` (`calculator.py`, lines 291-300): carbon in
g CO2e per tonne-km, energy in MJ per tonne-km, cost in USD per
tonne-km; unknown modes fall back to the diesel truck row. -/
def getTransportData (mode : String) : ℚ × ℚ × ℚ :=
  if mode = "Truck (Diesel)" then (62, 28/10, 15/100)
  else if mode = "Truck (Electric)" then (15, 7/10, 18/100)
  else if mode = "Rail" then (22, 1, 8/100)
  else if mode = "Ship" then (10, 5/10, 3/100)
  else if mode = "Air Freight" then (500, 22, 150/100)
  else (62, 28/10, 15/100)

/-- Per-leg detail record of the transport phase. -/
structure LegDetail where
  mode : String
  distance : ℚ
  load_factor : ℚ
  carbon : ℚ
  energy : ℚ
  cost : ℚ
deriving Repr, DecidableEq

/-- Result dict of `_calculate_transport_phase`. -/
structure TransportPhaseResult where
  carbon_kgCO2e : ℚ
  energy_MJ : ℚ
  cost_usd : ℚ
  distance_km : ℚ
  modal_mix : List (String × ℚ)
  legs : List LegDetail
deriving Repr, DecidableEq

/-- One iteration of the transport-legs loop
(`calculator.py`, lines 256-287). -/
def transportStep (total_mass : ℚ)
    (acc : TransportPhaseResult) (leg : TransportLeg) : TransportPhaseResult :=
  let td := getTransportData leg.mode
  let effective_distance :=
    if leg.load_factor > 0 then leg.distance_km / leg.load_factor else leg.distance_km
  let mass_tonne := total_mass / 1000
  let carbon := mass_tonne * effective_distance * td.1 / 1000
  let energy := mass_tonne * effective_distance * td.2.1
  let cost := mass_tonne * effective_distance * td.2.2
  { carbon_kgCO2e := acc.carbon_kgCO2e + carbon
    energy_MJ := acc.energy_MJ + energy
    cost_usd := acc.cost_usd + cost
    distance_km := acc.distance_km + leg.distance_km
    modal_mix := dictInsert acc.modal_mix leg.mode
      (dictGet acc.modal_mix leg.mode + leg.distance_km)
    legs := acc.legs ++
      [{ mode := leg.mode
         distance := leg.distance_km
         load_factor := leg.load_factor
         carbon := carbon
         energy := energy
         cost := cost }] }

/-- `_calculate_transport_phase` (`calculator.py`, lines 240-289). -/
def calcTransportPhase (spec : ProductSpec) : TransportPhaseResult :=
  let total_mass := totalMaterialMass spec.materials
  spec.transport_legs.foldl (transportStep total_mass)
    { carbon_kgCO2e := 0
      energy_MJ := 0
      cost_usd := 0
      distance_km := 0
      modal_mix := []
      legs := [] }

/-- `_calculate_dynamic_carbon` (`calculator.py`, lines 355-368): linear
grid-decarbonization: the flat 0.475 factor decays by 2% per year and
the per-year uses are `total_uses / lifetime`. -/
def calcDynamicCarbon (total_uses energy_per_use : ℚ) (lifetime : ℕ) : ℚ :=
  ((List.range lifetime).map (fun year =>
    (total_uses / (lifetime : ℚ)) * energy_per_use *
      ((475/1000) * ((98/100) ^ year)))).sum

/-- Per-scenario detail record of the use phase. -/
structure ScenarioDetail where
  scenario_type : String
  total_uses : ℚ
  carbon : ℚ
  energy : ℚ
  water : ℚ
deriving Repr, DecidableEq

/-- Result dict of `_calculate_use_phase`.  The maintenance impacts are
a constant all-zero record in the source (`_calculate_maintenance_impacts`,
lines 370-377), attached only when a maintenance dict was supplied. -/
structure UsePhaseResult where
  carbon_kgCO2e : ℚ
  energy_MJ : ℚ
  water_L : ℚ
  scenarios : List ScenarioDetail
  maintenance_impacts : List (String × ℚ)
deriving Repr, DecidableEq

/-- One iteration of the use-scenarios loop
(`calculator.py`, lines 317-345). -/
def useStep (lifetime : ℕ)
    (acc : UsePhaseResult) (sc : UseScenario) : UsePhaseResult :=
  let total_uses := sc.frequency_per_year * (lifetime : ℚ)
  let energy_total := total_uses * sc.energy_kWh_per_use * (36/10)
  let water_total := total_uses * sc.water_L_per_use
  let carbon_total :=
    if sc.consider_grid_decarbonization then
      calcDynamicCarbon total_uses sc.energy_kWh_per_use lifetime
    else
      total_uses * sc.energy_kWh_per_use * (475/1000)
  { acc with
      carbon_kgCO2e := acc.carbon_kgCO2e + carbon_total
      energy_MJ := acc.energy_MJ + energy_total
      water_L := acc.water_L + water_total
      scenarios := acc.scenarios ++
        [{ scenario_type := sc.scenario_type
           total_uses := total_uses
           carbon := carbon_total
           energy := energy_total
           water := water_total }] }

/-- `_calculate_use_phase` (`calculator.py`, lines 302-353). -/
def calcUsePhase (spec : ProductSpec) : UsePhaseResult :=
  let folded := spec.use_scenarios.foldl (useStep spec.lifetime_years)
    { carbon_kgCO2e := 0
      energy_MJ := 0
      water_L := 0
      scenarios := []
      maintenance_impacts := [] }
  if spec.maintenance then
    { folded with
        maintenance_impacts :=
          [("replacement_parts", 0), ("consumables", 0), ("service_visits", 0)] }
  else folded

/-- Circular-economy benefit sub-record of the end-of-life phase. -/
structure CircularityBenefits where
  material_recovery_potential_kg : ℚ
  energy_recovery_potential_MJ : ℚ
  avoided_virgin_material_kg : ℚ
deriving Repr, DecidableEq

/-- Result dict of `_calculate_eol_phase`. -/
structure EolPhaseResult where
  carbon_kgCO2e : ℚ
  energy_MJ : ℚ
  material_recovery_potential_MJ : ℚ
  circularity_benefits : CircularityBenefits
  waste_hierarchy : EolScenario
deriving Repr, DecidableEq

/-- `_calculate_eol_phase` (`calculator.py`, lines 379-425).  The rates
are used exactly as supplied — the function performs no validation that
they sum to 1 — and the net carbon
`recycling_credit + incineration_carbon + landfill_carbon`
is not clamped at zero. -/
def calcEolPhase (spec : ProductSpec) : EolPhaseResult :=
  let eol := spec.eol_scenario.getD defaultEolScenario
  let total_mass := totalMaterialMass spec.materials
  let recycling_mass := total_mass * eol.recycling_rate
  let recycling_credit := -recycling_mass * (15/10)
  let recycling_energy_credit := -recycling_mass * 5
  let incineration_mass := total_mass * eol.incineration_rate
  let incineration_energy := incineration_mass * 10 * eol.energy_recovery_efficiency
  let incineration_carbon := incineration_mass * (5/10)
  let landfill_mass := total_mass * eol.landfill_rate
  let landfill_carbon := landfill_mass * (1/10)
  { carbon_kgCO2e := recycling_credit + incineration_carbon + landfill_carbon
    energy_MJ := recycling_energy_credit + incineration_energy
    material_recovery_potential_MJ := total_mass * 20
    circularity_benefits :=
      { material_recovery_potential_kg := recycling_mass
        energy_recovery_potential_MJ := incineration_energy
        avoided_virgin_material_kg := recycling_mass * (8/10) }
    waste_hierarchy := eol }

/-- Result dict of `_calculate_upstream_impacts` and
`_calculate_downstream_impacts` (`calculator.py`, lines 427-445):
all-zero placeholder records. -/
structure SimplePhaseResult where
  carbon_kgCO2e : ℚ
  energy_MJ : ℚ
  water_L : ℚ
deriving Repr, DecidableEq

/-- `_calculate_upstream_impacts`: constant zeros. -/
def calcUpstreamImpacts (_spec : ProductSpec) : SimplePhaseResult :=
  { carbon_kgCO2e := 0, energy_MJ := 0, water_L := 0 }

/-- `_calculate_downstream_impacts`: constant zeros. -/
def calcDownstreamImpacts (_spec : ProductSpec) : SimplePhaseResult :=
  { carbon_kgCO2e := 0, energy_MJ := 0, water_L := 0 }

/-- The phase map built by `_calculate_all_phases`
(`calculator.py`, lines 76-89); dict keys become fields, in insertion
order material, manufacturing, transport, use, end_of_life, upstream,
downstream. -/
structure Phases where
  material : MaterialPhaseResult
  manufacturing : ManufacturingPhaseResult
  transport : TransportPhaseResult
  use : UsePhaseResult
  end_of_life : EolPhaseResult
  upstream : SimplePhaseResult
  downstream : SimplePhaseResult
deriving Repr, DecidableEq

/-- `_calculate_all_phases`. -/
def calcAllPhases (db : Database) (spec : ProductSpec) : Phases :=
  { material := calcMaterialPhase db spec
    manufacturing := calcManufacturingPhase db spec
    transport := calcTransportPhase spec
    use := calcUsePhase spec
    end_of_life := calcEolPhase spec
    upstream := calcUpstreamImpacts spec
    downstream := calcDownstreamImpacts spec }

/-- The four fields `_calculate_totals` reads from every phase dict with
`phase_data.get(key, 0)`; phases lacking a key contribute the default 0
(e.g. the transport dict has no `water_L` key, the use dict no
`cost_usd` key). -/
structure PhaseCommon where
  carbon_kgCO2e : ℚ
  energy_MJ : ℚ
  water_L : ℚ
  cost_usd : ℚ
deriving Repr, DecidableEq

/-- `.get` projection of the material phase dict (all four keys present). -/
def MaterialPhaseResult.common (r : MaterialPhaseResult) : PhaseCommon :=
  { carbon_kgCO2e := r.carbon_kgCO2e, energy_MJ := r.energy_MJ
    water_L := r.water_L, cost_usd := r.cost_usd }

/-- `.get` projection of the manufacturing phase dict (no `cost_usd` key). -/
def ManufacturingPhaseResult.common (r : ManufacturingPhaseResult) : PhaseCommon :=
  { carbon_kgCO2e := r.carbon_kgCO2e, energy_MJ := r.energy_MJ
    water_L := r.water_L, cost_usd := 0 }

/-- `.get` projection of the transport phase dict (no `water_L` key). -/
def TransportPhaseResult.common (r : TransportPhaseResult) : PhaseCommon :=
  { carbon_kgCO2e := r.carbon_kgCO2e, energy_MJ := r.energy_MJ
    water_L := 0, cost_usd := r.cost_usd }

/-- `.get` projection of the use phase dict (no `cost_usd` key). -/
def UsePhaseResult.common (r : UsePhaseResult) : PhaseCommon :=
  { carbon_kgCO2e := r.carbon_kgCO2e, energy_MJ := r.energy_MJ
    water_L := r.water_L, cost_usd := 0 }

/-- `.get` projection of the end-of-life phase dict
(no `water_L` or `cost_usd` key). -/
def EolPhaseResult.common (r : EolPhaseResult) : PhaseCommon :=
  { carbon_kgCO2e := r.carbon_kgCO2e, energy_MJ := r.energy_MJ
    water_L := 0, cost_usd := 0 }

/-- `.get` projection of the upstream/downstream dicts (no `cost_usd` key). -/
def SimplePhaseResult.common (r : SimplePhaseResult) : PhaseCommon :=
  { carbon_kgCO2e := r.carbon_kgCO2e, energy_MJ := r.energy_MJ
    water_L := r.water_L, cost_usd := 0 }

/-- `phases.values()` as seen through `.get(key, 0)`, in dict insertion
order. -/
def Phases.commons (p : Phases) : List PhaseCommon :=
  [p.material.common, p.manufacturing.common, p.transport.common,
   p.use.common, p.end_of_life.common, p.upstream.common, p.downstream.common]

/-- `phases.items()` restricted to the name and the
`.get('carbon_kgCO2e', 0)` value — the view used by
`_identify_hotspots` and `_calculate_improvement_potential`. -/
def Phases.carbonEntries (p : Phases) : List (String × ℚ) :=
  [("material", p.material.carbon_kgCO2e),
   ("manufacturing", p.manufacturing.carbon_kgCO2e),
   ("transport", p.transport.carbon_kgCO2e),
   ("use", p.use.carbon_kgCO2e),
   ("end_of_life", p.end_of_life.carbon_kgCO2e),
   ("upstream", p.upstream.carbon_kgCO2e),
   ("downstream", p.downstream.carbon_kgCO2e)]

/-- `_normalize_impacts` output (`calculator.py`, lines 474-488). -/
structure NormalizedImpacts where
  carbon : ℚ
  energy : ℚ
  water : ℚ
deriving Repr, DecidableEq

/-- `_calculate_impact_categories` output (`calculator.py`, lines 490-499). -/
structure ImpactCategories where
  climate_change : ℚ
  resource_depletion : ℚ
  water_scarcity : ℚ
  eutrophication : ℚ
  acidification : ℚ
deriving Repr, DecidableEq

/-- Result dict of `_calculate_totals`. -/
structure Totals where
  carbon_kgCO2e : ℚ
  energy_MJ : ℚ
  water_L : ℚ
  cost_usd : ℚ
  normalized_impacts : NormalizedImpacts
  impact_categories : ImpactCategories
deriving Repr, DecidableEq

/-- `_calculate_totals` (`calculator.py`, lines 447-472): sums the four
common fields across the phase map, then derives normalized impacts and
impact categories. -/
def calcTotals (p : Phases) : Totals :=
  let cs := p.commons
  let carbon := (cs.map (fun c => c.carbon_kgCO2e)).sum
  let energy := (cs.map (fun c => c.energy_MJ)).sum
  let water := (cs.map (fun c => c.water_L)).sum
  let cost := (cs.map (fun c => c.cost_usd)).sum
  { carbon_kgCO2e := carbon
    energy_MJ := energy
    water_L := water
    cost_usd := cost
    normalized_impacts :=
      { carbon := carbon / 5000
        energy := energy / 80000
        water := water / 1500000 }
    impact_categories :=
      { climate_change := p.material.carbon_kgCO2e * 1
        resource_depletion := p.material.energy_MJ * (1/100)
        water_scarcity := p.material.water_L * (1/1000)
        eutrophication := 0
        acidification := 0 } }

/-- `_assess_significance` (`calculator.py`, lines 526-535). -/
def assessSignificance (percentage : ℚ) : String :=
  if percentage > 50 then "Critical"
  else if percentage > 30 then "High"
  else if percentage > 15 then "Medium"
  else "Low"

/-- `_identify_improvement_levers` (`calculator.py`, lines 537-556). -/
def identifyImprovementLevers (phase_name : String) : List String :=
  if phase_name = "material" then
    ["Switch to lower-impact materials", "Increase recycled content",
     "Reduce material mass"]
  else if phase_name = "manufacturing" then
    ["Improve process efficiency", "Switch to renewable energy",
     "Optimize production planning"]
  else if phase_name = "transport" then
    ["Optimize logistics", "Switch to low-carbon transport",
     "Reduce transportation distance"]
  else ["General efficiency improvements"]

/-- A hotspot record (`calculator.py`, lines 513-519). -/
structure Hotspot where
  phase : String
  carbon_kgCO2e : ℚ
  percentage : ℚ
  significance : String
  improvement_levers : List String
deriving Repr, DecidableEq

/-- Stable insertion (descending by percentage): the new element goes
after every existing element whose percentage is at least as large —
the order produced by Python's stable
`sort(key=lambda x: x['percentage'], reverse=True)`. -/
def insertHotspotDesc (h : Hotspot) : List Hotspot → List Hotspot
  | [] => [h]
  | x :: xs =>
      if h.percentage ≤ x.percentage then x :: insertHotspotDesc h xs
      else h :: x :: xs

/-- Stable insertion sort, descending by percentage. -/
def sortHotspotsDesc (l : List Hotspot) : List Hotspot :=
  l.foldl (fun acc h => insertHotspotDesc h acc) []

/-- `_identify_hotspots` (`calculator.py`, lines 501-524), applied to the
(name, carbon) view of the phase map: when total carbon is positive,
keep the phases whose percentage share exceeds 10, sort descending by
percentage, return the first five. -/
def identifyHotspots (entries : List (String × ℚ)) : List Hotspot :=
  let total_carbon := (entries.map (fun e => e.2)).sum
  let hotspots :=
    if total_carbon > 0 then
      entries.filterMap (fun e =>
        let percentage := if total_carbon > 0 then e.2 / total_carbon * 100 else 0
        if percentage > 10 then
          some { phase := e.1
                 carbon_kgCO2e := e.2
                 percentage := percentage
                 significance := assessSignificance percentage
                 improvement_levers := identifyImprovementLevers e.1 }
        else none)
    else []
  (sortHotspotsDesc hotspots).take 5

/-- `_create_optimized_scenario` (`calculator.py`, lines 580-609).
The Python version mutates the material/process/leg dicts through a
shallow `copy()`; within one engine invocation the mutation is not
observable in the returned result (nothing re-reads those lists after
the improvement step), so the value-level translation is faithful for
the result. -/
def createOptimizedScenario (spec : ProductSpec) : ProductSpec :=
  { spec with
      materials := spec.materials.map (fun m =>
        { m with
            recycled_content := min (m.recycled_content + 3/10) 1
            material_id :=
              if m.material_id = "PP" ∨ m.material_id = "PET" then
                "R_" ++ m.material_id
              else m.material_id })
      manufacturing_processes := spec.manufacturing_processes.map (fun p =>
        { p with
            efficiency := min (p.efficiency + 1/10) (95/100)
            technology_level := "advanced" })
      transport_legs := spec.transport_legs.map (fun leg =>
        if leg.mode = "Air Freight" then { leg with mode := "Ship" }
        else if leg.mode = "Truck (Diesel)" then { leg with mode := "Rail" }
        else leg) }

/-- `_calculate_cost_implications` output (`calculator.py`, lines 639-649). -/
structure CostImplications where
  carbon_cost_savings_usd : ℚ
  payback_period_years : ℚ
  roi_percent : ℚ
deriving Repr, DecidableEq

/-- `_calculate_improvement_potential` output
(`calculator.py`, lines 558-578); the optimization-scenarios list is a
constant table in the source and is summarised by its names here. -/
structure ImprovementPotential where
  baseline_carbon_kgCO2e : ℚ
  optimized_carbon_kgCO2e : ℚ
  reduction_potential_percent : ℚ
  optimization_scenarios : List String
  cost_implications : CostImplications
deriving Repr, DecidableEq

/-- `_calculate_improvement_potential` (`calculator.py`, lines 558-578). -/
def calcImprovementPotential (db : Database) (spec : ProductSpec)
    (phases : Phases) : ImprovementPotential :=
  let baseline_carbon := ((phases.carbonEntries).map (fun e => e.2)).sum
  let optimized_phases := calcAllPhases db (createOptimizedScenario spec)
  let optimized_carbon := ((optimized_phases.carbonEntries).map (fun e => e.2)).sum
  let reduction :=
    if baseline_carbon > 0 then
      (baseline_carbon - optimized_carbon) / baseline_carbon * 100
    else 0
  { baseline_carbon_kgCO2e := baseline_carbon
    optimized_carbon_kgCO2e := optimized_carbon
    reduction_potential_percent := reduction
    optimization_scenarios :=
      ["Material Optimization", "Process Optimization", "Circular Economy"]
    cost_implications :=
      { carbon_cost_savings_usd := (baseline_carbon - optimized_carbon) * 50 / 1000
        payback_period_years := 3
        roi_percent := 25 } }

/-- `_assess_data_quality` output (`calculator.py`, lines 651-671): a
fixed Pedigree-matrix record.  The function takes the product
specification but never reads it, so the assessment is a constant; in
particular it records no warning about skipped entries. -/
structure DataQuality where
  reliability : ℕ
  completeness : ℕ
  temporal_correlation : ℕ
  geographical_correlation : ℕ
  technological_correlation : ℕ
  overall_quality_percent : ℚ
  uncertainty_factor : ℚ
deriving Repr, DecidableEq

/-- `_calculate_uncertainty_factor` (`calculator.py`, lines 673-680). -/
def calcUncertaintyFactor (quality_percentage : ℚ) : ℚ :=
  if quality_percentage > 80 then 11/10
  else if quality_percentage > 60 then 13/10
  else 15/10

/-- `_assess_data_quality` (`calculator.py`, lines 651-671): all five
pedigree scores are the literal 2, the overall quality is
10/15 × 100 = 200/3 percent, and the uncertainty factor follows from it. -/
def assessDataQuality (_spec : ProductSpec) : DataQuality :=
  let total_score : ℚ := 2 + 2 + 2 + 2 + 2
  let quality_percentage := total_score / (5 * 3) * 100
  { reliability := 2
    completeness := 2
    temporal_correlation := 2
    geographical_correlation := 2
    technological_correlation := 2
    overall_quality_percent := quality_percentage
    uncertainty_factor := calcUncertaintyFactor quality_percentage }

/-!
## Uncertainty module (`src/modules/uncertainty.py`)

The numpy generator `np.random.default_rng(42)` is abstracted as a
stream of standard-normal draws indexed by the seed and a running
position; `rng.normal(mean, std)` returns `mean + std * draw` and
advances the position.  The analyzer's generator is created once at
construction and persists across analysis calls, so the reachable state
is the pair (seed, position).
-/

/-- Abstract stream of standard-normal draws: seed → draw index → value.
The concrete PCG64/ziggurat stream lives outside the repository. -/
abbrev NormalStream : Type := ℕ → ℕ → ℚ

/-- Generator state: the seed it was created with and the number of
draws consumed so far. -/
structure RngState where
  seed : ℕ
  pos : ℕ
deriving Repr, DecidableEq

/-- `rng.normal(mean, std)`: one draw from the stream, shifted and
scaled; the position advances by one. -/
def drawNormal (stream : NormalStream) (mean std : ℚ) (s : RngState) : ℚ × RngState :=
  (mean + std * stream s.seed s.pos, { seed := s.seed, pos := s.pos + 1 })

/-- `UncertaintyAnalyzer.__init__` (`uncertainty.py`, lines 12-14): the
only parameter is the iteration count; the generator seed is the
hard-coded literal 42 (`np.random.default_rng(42)`).  No seed argument
exists. -/
structure UncertaintyAnalyzer where
  n_iterations : ℕ
  rngSeed : ℕ
deriving Repr, DecidableEq

/-- The constructor: `UncertaintyAnalyzer(n_iterations=10000)`. -/
def UncertaintyAnalyzer.init (n_iterations : ℕ := 10000) : UncertaintyAnalyzer :=
  { n_iterations := n_iterations, rngSeed := 42 }

/-- A fresh analyzer's generator state: seed 42, no draws consumed. -/
def UncertaintyAnalyzer.freshState (a : UncertaintyAnalyzer) : RngState :=
  { seed := a.rngSeed, pos := 0 }

/-- `_get_material_with_uncertainty` (`uncertainty.py`, lines 91-100):
(carbon mean, carbon std) per material id, with a generic default. -/
def getMaterialWithUncertainty (material_id : String) : ℚ × ℚ :=
  if material_id = "PP" then (21/10, 21/100)
  else if material_id = "PET" then (32/10, 32/100)
  else if material_id = "AL" then (82/10, 82/100)
  else (25/10, 25/100)

/-- `_sample_process_carbon` (`uncertainty.py`, lines 102-113). -/
def sampleProcessCarbon (stream : NormalStream) (proc : ProcessEntry)
    (s : RngState) : ℚ × RngState :=
  let d :=
    if proc.process = "Injection Molding" then ((15/100 : ℚ), (15/1000 : ℚ))
    else if proc.process = "Assembly" then (3/100, 3/1000)
    else (1/10, 1/100)
  drawNormal stream d.1 d.2 s

/-- `_sample_transport_carbon` (`uncertainty.py`, lines 115-118):
a fixed normal(0.1, 0.01) placeholder draw per leg. -/
def sampleTransportCarbon (stream : NormalStream) (_leg : TransportLeg)
    (s : RngState) : ℚ × RngState :=
  drawNormal stream (1/10) (1/100) s

/-- Accumulate one sampled contribution per list element, threading the
generator state — the shape of each loop in `_sample_carbon_footprint`. -/
def accumSamples {α : Type} (g : α → RngState → ℚ × RngState)
    (l : List α) (init : ℚ × RngState) : ℚ × RngState :=
  l.foldl (fun p x =>
    let r := g x p.2
    (p.1 + r.1, r.2)) init

/-- `_sample_carbon_footprint` (`uncertainty.py`, lines 55-89): one
normal draw per material (mass × sampled carbon factor), one per
process, one per transport leg; the total is clamped at zero. -/
def sampleCarbonFootprint (stream : NormalStream) (spec : ProductSpec)
    (s : RngState) : ℚ × RngState :=
  let p1 := accumSamples (fun (mat : MaterialEntry) s0 =>
      let mu := getMaterialWithUncertainty mat.material_id
      let r := drawNormal stream mu.1 mu.2 s0
      (mat.mass_kg * r.1, r.2)) spec.materials (0, s)
  let p2 := accumSamples (sampleProcessCarbon stream) spec.manufacturing_processes p1
  let p3 := accumSamples (sampleTransportCarbon stream) spec.transport_legs p2
  (max p3.1 0, p3.2)

/-- Modelled from the spec: `_sample_energy_use` is called by
`monte_carlo_analysis` (`uncertainty.py`, line 32) but is defined
nowhere in the repository.  Spec §4.7: each trial re-samples every
material's energy factor from a normal distribution with that
material's reference mean/std and clamps negative samples to zero; the
module's per-material uncertainty table supplies the mean/std. -/
def sampleEnergyUse (stream : NormalStream) (spec : ProductSpec)
    (s : RngState) : ℚ × RngState :=
  let p := accumSamples (fun (mat : MaterialEntry) s0 =>
      let mu := getMaterialWithUncertainty mat.material_id
      let r := drawNormal stream mu.1 mu.2 s0
      (mat.mass_kg * r.1, r.2)) spec.materials (0, s)
  (max p.1 0, p.2)

/-- Modelled from the spec: `_sample_water_use` is called by
`monte_carlo_analysis` (`uncertainty.py`, line 33) but is defined
nowhere in the repository.  Modelled like `sampleEnergyUse` (spec §4.7:
one clamped normal re-sample per material). -/
def sampleWaterUse (stream : NormalStream) (spec : ProductSpec)
    (s : RngState) : ℚ × RngState :=
  let p := accumSamples (fun (mat : MaterialEntry) s0 =>
      let mu := getMaterialWithUncertainty mat.material_id
      let r := drawNormal stream mu.1 mu.2 s0
      (mat.mass_kg * r.1, r.2)) spec.materials (0, s)
  (max p.1 0, p.2)

/-- The three output distributions accumulated by the Monte Carlo loop
(`uncertainty.py`, lines 19-37). The later summary steps of
`monte_carlo_analysis` (`_calculate_statistics` and friends) reference
names absent from or shadowed in the module and are not modelled; the
claims are settled on the sampling loop itself. -/
structure MCDistributions where
  carbon_distribution : List ℚ
  energy_distribution : List ℚ
  water_distribution : List ℚ
deriving Repr, DecidableEq

/-- The Monte Carlo iteration loop: each iteration draws one carbon,
one energy and one water sample in that order, appending to the three
distributions. -/
def mcLoop (stream : NormalStream) (spec : ProductSpec) :
    ℕ → MCDistributions × RngState → MCDistributions × RngState
  | 0, acc => acc
  | n + 1, (d, s) =>
      let c := sampleCarbonFootprint stream spec s
      let e := sampleEnergyUse stream spec c.2
      let w := sampleWaterUse stream spec e.2
      mcLoop stream spec n
        ({ carbon_distribution := d.carbon_distribution ++ [c.1]
           energy_distribution := d.energy_distribution ++ [e.1]
           water_distribution := d.water_distribution ++ [w.1] }, w.2)

/-- `monte_carlo_analysis` (`uncertainty.py`, lines 16-53), sampling
part: run `n_iterations` trials from the analyzer's current generator
state, returning the distributions and the advanced state. -/
def UncertaintyAnalyzer.monteCarloAnalysis (a : UncertaintyAnalyzer)
    (stream : NormalStream) (spec : ProductSpec) (s : RngState) :
    MCDistributions × RngState :=
  mcLoop stream spec a.n_iterations
    ({ carbon_distribution := [], energy_distribution := [],
       water_distribution := [] }, s)

/-- Circularity metrics record. -/
structure CircularityMetrics where
  material_circularity_indicator : ℚ
  classification : String
deriving Repr, DecidableEq

/-- Modelled from the spec: `CircularEconomyAnalyzer` is instantiated by
the engine constructor (`calculator.py`, line 33) but is defined nowhere
in the repository.  Spec §4.8: MCI = mass-weighted recycled content ×
0.4 + mass-weighted recyclability × 0.3 + min(lifetime/10, 1) × 0.3,
with zero total mass giving MCI 0 and class Linear; materials without a
catalog entry contribute recyclability 0. -/
def calculateCircularityMetrics (db : Database) (spec : ProductSpec) :
    CircularityMetrics :=
  let tm := totalMaterialMass spec.materials
  if tm = 0 then
    { material_circularity_indicator := 0, classification := "Linear" }
  else
    let recycled_weighted :=
      (spec.materials.map (fun m => m.mass_kg * m.recycled_content)).sum / tm
    let recyclability_weighted :=
      (spec.materials.map (fun m =>
        m.mass_kg * (((db.get_material m.material_id).map
          (fun d => d.recyclability)).getD 0))).sum / tm
    let lifetime_score := min ((spec.lifetime_years : ℚ) / 10) 1
    let mci := recycled_weighted * (4/10) + recyclability_weighted * (3/10) +
      lifetime_score * (3/10)
    { material_circularity_indicator := mci
      classification :=
        if mci ≥ 8/10 then "Highly Circular"
        else if mci ≥ 6/10 then "Moderately Circular"
        else if mci ≥ 4/10 then "Transitional"
        else "Linear" }

/-- Result metadata (`calculator.py`, lines 67-71); the free-form
assumptions dict is not modelled. -/
structure Metadata where
  calculation_method : String
  data_quality : DataQuality
deriving Repr, DecidableEq

/-- `LCAResult` (`calculator.py`, lines 13-25).  The wall-clock
timestamp is external and not modelled. -/
structure LCAResult where
  product_id : String
  product_name : String
  phases : Phases
  totals : Totals
  uncertainty : MCDistributions
  circularity_metrics : CircularityMetrics
  hotspots : List Hotspot
  improvement_potential : ImprovementPotential
  metadata : Metadata
deriving Repr, DecidableEq

/-- `calculate_comprehensive_lca` (`calculator.py`, lines 35-74):
uncertainty analysis, circularity, phases, totals, hotspots,
improvement potential, then the result record.  The engine's analyzer
is the default-constructed `UncertaintyAnalyzer()` (n_iterations
10000); its generator state is threaded in and out because it persists
across engine invocations. -/
def calculateComprehensiveLCA (db : Database) (stream : NormalStream)
    (spec : ProductSpec) (rng : RngState) : LCAResult × RngState :=
  let mc := UncertaintyAnalyzer.init.monteCarloAnalysis stream spec rng
  let circularity := calculateCircularityMetrics db spec
  let phases := calcAllPhases db spec
  let totals := calcTotals phases
  let hotspots := identifyHotspots phases.carbonEntries
  let improvement := calcImprovementPotential db spec phases
  ({ product_id := spec.product_id
     product_name := spec.product_name
     phases := phases
     totals := totals
     uncertainty := mc.1
     circularity_metrics := circularity
     hotspots := hotspots
     improvement_potential := improvement
     metadata :=
       { calculation_method := "Advanced LCA Engine v2.0"
         data_quality := assessDataQuality spec } }, mc.2)

/-!
## Concrete reference data

`AdvancedLCADatabase._load_materials_database` (`database.py`, lines
108-124) loads a single material, PP; the regional-factors table is
populated by a loader that is absent from the repository, so lookups
fall back to the 475 g CO2e/kWh default.
-/

/-- The PP row of the materials table (`database.py`, lines 112-119). -/
def ppMaterialData : MaterialData :=
  { carbon_footprint := 21/10
    carbon_std := 1/10
    embodied_energy := 856/10
    embodied_energy_std := 32/10
    water_use := 75
    recyclability := 85/100
    recycled_potential := 30/100
    price := 18/10
    strength := 35 }

/-- The loaded database: PP only; no regional factors. -/
def theDatabase : Database :=
  { get_material := fun id => if id = "PP" then some ppMaterialData else none
    regional_factors := fun _ => none }

/-!
## Concrete specifications used by counterexamples and witnesses
-/

/-- A minimal specification: no materials, processes, legs or scenarios. -/
def emptySpec : ProductSpec :=
  { product_id := "P1"
    product_name := "Bottle"
    materials := []
    allocation_method := .mass
    manufacturing_processes := []
    manufacturing_region := "Global Average"
    transport_legs := []
    use_scenarios := []
    lifetime_years := 1
    maintenance := false
    eol_scenario := none }

/-- One known material: PP, 1 kg, no recycled content. -/
def ppSpec : ProductSpec :=
  { emptySpec with materials := [⟨"PP", 1, 0⟩] }

/-- One known material with full recycled content. -/
def fullyRecycledSpec : ProductSpec :=
  { emptySpec with materials := [⟨"PP", 1, 1⟩] }

/-- One material whose id has no catalog entry. -/
def unknownMaterialSpec : ProductSpec :=
  { emptySpec with materials := [⟨"XX", 1, 0⟩] }

/-- A known and an unknown material of equal mass. -/
def mixedKnownUnknownSpec : ProductSpec :=
  { emptySpec with materials := [⟨"PP", 1, 0⟩, ⟨"XX", 1, 0⟩] }

/-- End-of-life rates 0.5/0.3/0.3, summing to 1.1. -/
def invalidRatesSpec : ProductSpec :=
  { emptySpec with
      materials := [⟨"PP", 1, 0⟩]
      eol_scenario := some ⟨1/2, 3/10, 3/10, 8/10⟩ }

/-- One Injection Molding step at efficiency 1, average technology. -/
def injectionMoldingSpec : ProductSpec :=
  { emptySpec with
      materials := [⟨"PP", 1, 0⟩]
      manufacturing_processes := [⟨"Injection Molding", 1, "average"⟩] }

/-- A draw stream returning the draw index, used to exhibit that a rerun
on the same analyzer instance reads a different stream segment. -/
def indexStream : NormalStream := fun _ pos => (pos : ℚ)

/-!
## Helper lemmas: insertion sort on hotspots
-/

/-- Membership after stable descending insertion. -/
lemma mem_insertHotspotDesc {x h : Hotspot} {l : List Hotspot} :
    x ∈ insertHotspotDesc h l ↔ x = h ∨ x ∈ l := by
  induction l with
  | nil => simp [insertHotspotDesc]
  | cons y ys ih =>
      by_cases hc : h.percentage ≤ y.percentage
      · simp [insertHotspotDesc, hc, ih]
        tauto
      · simp [insertHotspotDesc, hc]

/-- Insertion grows the length by one. -/
lemma length_insertHotspotDesc (h : Hotspot) (l : List Hotspot) :
    (insertHotspotDesc h l).length = l.length + 1 := by
  induction l with
  | nil => simp [insertHotspotDesc]
  | cons y ys ih =>
      by_cases hc : h.percentage ≤ y.percentage
      · simp [insertHotspotDesc, hc, ih]
      · simp [insertHotspotDesc, hc]

/-- Insertion preserves descending order by percentage. -/
lemma pairwise_insertHotspotDesc {h : Hotspot} {l : List Hotspot}
    (hl : l.Pairwise (fun a b => b.percentage ≤ a.percentage)) :
    (insertHotspotDesc h l).Pairwise (fun a b => b.percentage ≤ a.percentage) := by
  induction l with
  | nil => simp [insertHotspotDesc]
  | cons y ys ih =>
      rcases List.pairwise_cons.mp hl with ⟨hy, hys⟩
      by_cases hc : h.percentage ≤ y.percentage
      · rw [insertHotspotDesc, if_pos hc]
        refine List.pairwise_cons.mpr ⟨?_, ih hys⟩
        intro b hb
        rcases mem_insertHotspotDesc.mp hb with hbh | hbys
        · rw [hbh]; exact hc
        · exact hy b hbys
      · rw [insertHotspotDesc, if_neg hc]
        have hyh : y.percentage ≤ h.percentage := le_of_not_le hc
        refine List.pairwise_cons.mpr ⟨?_, hl⟩
        intro b hb
        rcases List.mem_cons.mp hb with hby | hbys
        · rw [hby]; exact hyh
        · exact le_trans (hy b hbys) hyh

/-- The insertion-sort fold sends a sorted accumulator to a sorted list. -/
lemma pairwise_sort_fold (l : List Hotspot) :
    ∀ acc : List Hotspot,
      acc.Pairwise (fun a b => b.percentage ≤ a.percentage) →
      (l.foldl (fun acc h => insertHotspotDesc h acc) acc).Pairwise
        (fun a b => b.percentage ≤ a.percentage) := by
  induction l with
  | nil => intro acc hacc; simpa using hacc
  | cons y ys ih =>
      intro acc hacc
      simpa using ih (insertHotspotDesc y acc) (pairwise_insertHotspotDesc hacc)

/-- Elements of the insertion-sort fold come from the accumulator or the
input list. -/
lemma mem_sort_fold (l : List Hotspot) :
    ∀ (acc : List Hotspot) (x : Hotspot),
      x ∈ l.foldl (fun acc h => insertHotspotDesc h acc) acc →
      x ∈ acc ∨ x ∈ l := by
  induction l with
  | nil => intro acc x hx; exact Or.inl (by simpa using hx)
  | cons y ys ih =>
      intro acc x hx
      rcases ih (insertHotspotDesc y acc) x (by simpa using hx) with hmem | hmem
      · rcases mem_insertHotspotDesc.mp hmem with hxy | hxa
        · exact Or.inr (by simp [hxy])
        · exact Or.inl hxa
      · exact Or.inr (List.mem_cons_of_mem y hmem)

/-- Sortedness of `sortHotspotsDesc`. -/
lemma pairwise_sortHotspotsDesc (l : List Hotspot) :
    (sortHotspotsDesc l).Pairwise (fun a b => b.percentage ≤ a.percentage) :=
  pairwise_sort_fold l [] (by simp)

/-- Elements of `sortHotspotsDesc l` come from `l`. -/
lemma mem_sortHotspotsDesc {l : List Hotspot} {x : Hotspot}
    (hx : x ∈ sortHotspotsDesc l) : x ∈ l := by
  rcases mem_sort_fold l [] x hx with hmem | hmem
  · simp at hmem
  · exact hmem

/-- Claim C8: for every phase carbon map, the hotspot list contains only
phases whose percentage share of total carbon exceeds the 10 threshold,
is sorted by descending percentage contribution, and never exceeds 5
entries. -/
theorem hotspots_thresholded_sorted_capped (entries : List (String × ℚ)) :
    (∀ h ∈ identifyHotspots entries, 10 < h.percentage) ∧
    (identifyHotspots entries).Pairwise (fun a b => b.percentage ≤ a.percentage) ∧
    (identifyHotspots entries).length ≤ 5 := by
  refine ⟨?_, ?_, ?_⟩
  · intro h hh
    unfold identifyHotspots at hh
    have h2 := mem_sortHotspotsDesc (List.take_subset _ _ hh)
    by_cases hpos : (entries.map (fun e => e.2)).sum > 0
    · rw [if_pos hpos] at h2
      simp only [List.mem_filterMap] at h2
      obtain ⟨e, _, hfe⟩ := h2
      simp only [hpos, if_true] at hfe
      by_cases hthr : e.2 / (entries.map (fun e => e.2)).sum * 100 > 10
      · rw [if_pos hthr] at hfe
        injection hfe with h3
        rw [h3.symm]
        simpa using hthr
      · rw [if_neg hthr] at hfe
        exact absurd hfe (by simp)
    · rw [if_neg hpos] at h2
      simp at h2
  · exact List.Pairwise.sublist (List.take_sublist _ _)
      (pairwise_sortHotspotsDesc _)
  · calc (identifyHotspots entries).length
        = min 5 (sortHotspotsDesc _).length := by
          unfold identifyHotspots; exact List.length_take _ _
      _ ≤ 5 := min_le_left _ _

/-- A concrete two-phase carbon map and the hotspot record it
produces: material carries 100 percent of a positive total. -/
def demoEntries : List (String × ℚ) := [("material", 2), ("use", 0)]

/-- The hotspot computed from `demoEntries`. -/
def demoHotspot : Hotspot :=
  { phase := "material"
    carbon_kgCO2e := 2
    percentage := 100
    significance := "Critical"
    improvement_levers :=
      ["Switch to lower-impact materials", "Increase recycled content",
       "Reduce material mass"] }

/-- Witness for C8: the threshold part applied to the concrete hotspot
of `demoEntries`, whose membership is evaluated directly. -/
theorem hotspots_thresholded_sorted_capped_witness :
    (demoHotspot ∈ identifyHotspots demoEntries) ∧ 10 < demoHotspot.percentage :=
  ⟨by
     simp +decide [identifyHotspots, sortHotspotsDesc, insertHotspotDesc,
       assessSignificance, identifyImprovementLevers, List.filterMap_cons,
       demoEntries, demoHotspot],
   (hotspots_thresholded_sorted_capped demoEntries).1 demoHotspot
     (by
       simp +decide [identifyHotspots, sortHotspotsDesc, insertHotspotDesc,
         assessSignificance, identifyImprovementLevers, List.filterMap_cons,
         demoEntries, demoHotspot])⟩

/-- Claim C10: when the phase carbon values sum to a non-positive
total (possible when the end-of-life recycling credit dominates), the
hotspot list is empty regardless of individual contributions. -/
theorem hotspots_empty_on_nonpositive_total (entries : List (String × ℚ))
    (h : (entries.map (fun e => e.2)).sum ≤ 0) :
    identifyHotspots entries = [] := by
  simp only [identifyHotspots]
  rw [if_neg (not_lt.mpr h)]
  rfl

/-- Witness for C10 at a concrete phase map with a dominating
end-of-life credit. -/
theorem hotspots_empty_on_nonpositive_total_witness :
    (([(("end_of_life" : String), (-1 : ℚ))].map (fun e => e.2)).sum ≤ 0) ∧
    identifyHotspots [(("end_of_life" : String), (-1 : ℚ))] = [] :=
  ⟨by norm_num,
   hotspots_empty_on_nonpositive_total
     [(("end_of_life" : String), (-1 : ℚ))] (by norm_num)⟩

/-- Claim C1: for every specification, the totals carbon of the engine
result equals the sum of the carbon values over the computed phase map;
the two phases beyond the spec's five (upstream, downstream) carry zero
carbon, so the total also equals the five-phase sum exactly (exact
rational arithmetic subsumes the 1e-9 tolerance). -/
theorem totals_carbon_is_phase_map_sum (db : Database) (stream : NormalStream)
    (spec : ProductSpec) (rng : RngState) :
    ((calculateComprehensiveLCA db stream spec rng).1.totals.carbon_kgCO2e =
      (((calculateComprehensiveLCA db stream spec rng).1.phases.carbonEntries).map
        (fun e => e.2)).sum) ∧
    (calculateComprehensiveLCA db stream spec rng).1.phases.upstream.carbon_kgCO2e = 0 ∧
    (calculateComprehensiveLCA db stream spec rng).1.phases.downstream.carbon_kgCO2e = 0 ∧
    ((calculateComprehensiveLCA db stream spec rng).1.totals.carbon_kgCO2e =
      (calculateComprehensiveLCA db stream spec rng).1.phases.material.carbon_kgCO2e +
      (calculateComprehensiveLCA db stream spec rng).1.phases.manufacturing.carbon_kgCO2e +
      (calculateComprehensiveLCA db stream spec rng).1.phases.transport.carbon_kgCO2e +
      (calculateComprehensiveLCA db stream spec rng).1.phases.use.carbon_kgCO2e +
      (calculateComprehensiveLCA db stream spec rng).1.phases.end_of_life.carbon_kgCO2e) := by
  refine ⟨?_, rfl, rfl, ?_⟩
  · simp [calculateComprehensiveLCA, calcTotals, calcAllPhases, Phases.commons,
      Phases.carbonEntries, MaterialPhaseResult.common, ManufacturingPhaseResult.common,
      TransportPhaseResult.common, UsePhaseResult.common, EolPhaseResult.common,
      SimplePhaseResult.common, calcUpstreamImpacts, calcDownstreamImpacts]
  · simp [calculateComprehensiveLCA, calcTotals, calcAllPhases, Phases.commons,
      MaterialPhaseResult.common, ManufacturingPhaseResult.common,
      TransportPhaseResult.common, UsePhaseResult.common, EolPhaseResult.common,
      SimplePhaseResult.common, calcUpstreamImpacts, calcDownstreamImpacts]
    ring

/-- Claim C2 (amended): the engine performs no validation of the
end-of-life rates.  For every specification — including rates that do
not sum to 1 — the calculation proceeds, each rate independently
scaling total mass, and the end-of-life carbon is the formula value on
the rates exactly as supplied. -/
theorem eol_rates_used_without_validation (db : Database) (stream : NormalStream)
    (spec : ProductSpec) (rng : RngState) :
    (calculateComprehensiveLCA db stream spec rng).1.phases.end_of_life.carbon_kgCO2e =
      -(totalMaterialMass spec.materials *
          (spec.eol_scenario.getD defaultEolScenario).recycling_rate) * (15/10) +
      totalMaterialMass spec.materials *
          (spec.eol_scenario.getD defaultEolScenario).incineration_rate * (5/10) +
      totalMaterialMass spec.materials *
          (spec.eol_scenario.getD defaultEolScenario).landfill_rate * (1/10) := by
  simp [calculateComprehensiveLCA, calcAllPhases, calcEolPhase]

/-- Counterexample to C2 as stated: with end-of-life rates
{0.5, 0.3, 0.3} (sum 1.1) the engine raises nothing before phase
calculation; the end-of-life phase is computed (carbon -0.57) and a
full result with totals is produced (total carbon 1.53), contradicting
the claimed fail-fast with no partial result. -/
theorem invalid_eol_rates_processed_counterexample :
    (calculateComprehensiveLCA theDatabase indexStream invalidRatesSpec
      ⟨42, 0⟩).1.phases.end_of_life.carbon_kgCO2e = -(57/100) ∧
    (calculateComprehensiveLCA theDatabase indexStream invalidRatesSpec
      ⟨42, 0⟩).1.totals.carbon_kgCO2e = 153/100 := by
  constructor
  · simp +decide [calculateComprehensiveLCA, calcAllPhases, calcEolPhase,
      totalMaterialMass, invalidRatesSpec, emptySpec]
    norm_num
  · simp +decide [calculateComprehensiveLCA, calcTotals, calcAllPhases, Phases.commons,
      MaterialPhaseResult.common, ManufacturingPhaseResult.common,
      TransportPhaseResult.common, UsePhaseResult.common, EolPhaseResult.common,
      SimplePhaseResult.common, calcMaterialPhase, materialPhaseStep,
      initMaterialPhaseResult, allocationFactor, calcManufacturingPhase,
      calcTransportPhase, calcUsePhase, calcEolPhase, calcUpstreamImpacts,
      calcDownstreamImpacts, totalMaterialMass, theDatabase, ppMaterialData,
      dictInsert, invalidRatesSpec, emptySpec]
    norm_num

/-- Claim C9: at fixed materials and fixed incineration/landfill rates,
the net end-of-life carbon is non-increasing in the recycling rate
(the credit term has slope -1.5 × mass), and it may be negative — the
default 0.7/0.2/0.1 scenario on 1 kg yields -0.94, unclamped. -/
theorem eol_carbon_monotone_in_recycling_and_unclamped :
    (∀ (spec : ProductSpec) (sc : EolScenario) (r1 r2 : ℚ),
       0 ≤ totalMaterialMass spec.materials → r1 ≤ r2 →
       (calcEolPhase { spec with
          eol_scenario := some { sc with recycling_rate := r2 } }).carbon_kgCO2e ≤
         (calcEolPhase { spec with
            eol_scenario := some { sc with recycling_rate := r1 } }).carbon_kgCO2e) ∧
    (calcEolPhase ppSpec).carbon_kgCO2e < 0 := by
  constructor
  · intro spec sc r1 r2 hm hr
    simp only [calcEolPhase, Option.getD_some]
    have hmul : totalMaterialMass spec.materials * r1 ≤
        totalMaterialMass spec.materials * r2 :=
      mul_le_mul_of_nonneg_left hr hm
    nlinarith [hmul]
  · norm_num [calcEolPhase, totalMaterialMass, ppSpec, emptySpec, defaultEolScenario]

/-- Witness for C9: the monotonicity part applied at the concrete PP
specification with recycling rates 0.5 ≤ 0.7. -/
theorem eol_carbon_monotone_witness :
    (0 ≤ totalMaterialMass ppSpec.materials) ∧ ((1/2 : ℚ) ≤ 7/10) ∧
    ((calcEolPhase { ppSpec with
        eol_scenario := some
          { defaultEolScenario with recycling_rate := 7/10 } }).carbon_kgCO2e ≤
      (calcEolPhase { ppSpec with
        eol_scenario := some
          { defaultEolScenario with recycling_rate := 1/2 } }).carbon_kgCO2e) :=
  ⟨by norm_num [totalMaterialMass, ppSpec, emptySpec], by norm_num,
   eol_carbon_monotone_in_recycling_and_unclamped.1 ppSpec defaultEolScenario
     (1/2) (7/10) (by norm_num [totalMaterialMass, ppSpec, emptySpec]) (by norm_num)⟩

/-- The efficiency-score fill-in at the end of the manufacturing phase
leaves the accumulated carbon unchanged. -/
lemma manufacturing_carbon_of_score_update (r : ManufacturingPhaseResult) (x : ℚ) :
    (if r.processes = [] then r
     else { r with efficiency_score := x }).carbon_kgCO2e = r.carbon_kgCO2e := by
  split
  · rfl
  · rfl

/-- The manufacturing fold accumulates exactly one grid conversion of
the drawn process energy per entry. -/
lemma manufacturing_fold_carbon (db : Database) (region : String) (total_mass : ℚ)
    (l : List ProcessEntry) :
    ∀ acc : ManufacturingPhaseResult,
      (l.foldl (manufacturingStep db region total_mass) acc).carbon_kgCO2e =
        acc.carbon_kgCO2e + (l.map (fun proc =>
          total_mass * getProcessEnergy proc.process / proc.efficiency *
            techFactor proc.technology_level * (36/10) *
            regionalCarbon db region / 1000)).sum := by
  induction l with
  | nil => intro acc; simp
  | cons p ps ih =>
      intro acc
      simp only [List.foldl_cons, List.map_cons, List.sum_cons]
      rw [ih]
      simp [manufacturingStep]
      ring

/-- Claim C7 (amended): each declared process step contributes a SINGLE
carbon conversion — the drawn energy
(total mass × intensity / efficiency × technology factor) times
3.6 × grid intensity / 1000 — with no second, process-direct carbon
term; the phase carbon is the sum of these single conversions. -/
theorem manufacturing_carbon_single_grid_conversion (db : Database)
    (spec : ProductSpec) :
    (calcManufacturingPhase db spec).carbon_kgCO2e =
      (spec.manufacturing_processes.map (fun proc =>
        totalMaterialMass spec.materials * getProcessEnergy proc.process /
          proc.efficiency * techFactor proc.technology_level * (36/10) *
          regionalCarbon db spec.manufacturing_region / 1000)).sum := by
  simp only [calcManufacturingPhase]
  rw [manufacturing_carbon_of_score_update, manufacturing_fold_carbon]
  simp

/-- The per-step carbon as the spec words it: the drawn energy converted
to carbon TWICE — once via the process's own direct carbon factor and
once via the regional grid intensity — with the two contributions
added. -/
def specStepCarbonTwice (energy_kWh direct_factor grid : ℚ) : ℚ :=
  energy_kWh * direct_factor + energy_kWh * (36/10) * grid / 1000

/-- Counterexample to C7 as stated: for a 1 kg product with one
Injection Molding step at efficiency 1 and the 475 grid default, the
engine's step carbon is 2.052 — exactly the grid-only conversion —
while the claimed twice-converted value (instantiating the process's
own direct carbon factor with Injection Molding's 0.8 from the
application-level process table, `src/app.py` line 502) is 3.012. -/
theorem manufacturing_counterexample :
    (calcManufacturingPhase theDatabase injectionMoldingSpec).carbon_kgCO2e = 513/250 ∧
    specStepCarbonTwice (12/10) (8/10) 475 = 753/250 ∧
    ((513/250 : ℚ) ≠ 753/250) := by
  refine ⟨?_, by norm_num [specStepCarbonTwice], by norm_num⟩
  simp +decide [calcManufacturingPhase, manufacturingStep, totalMaterialMass,
    techFactor, getProcessEnergy, regionalCarbon, theDatabase,
    injectionMoldingSpec, emptySpec]
  norm_num

/-- The per-entry impact formula as the spec words it:
mass × base_factor × (virgin_fraction + recycled_fraction ×
recycled_discount). -/
def specMaterialImpact (mass base_factor recycled_content recycled_discount : ℚ) : ℚ :=
  mass * base_factor * ((1 - recycled_content) + recycled_content * recycled_discount)

/-- Claim C4 (amended): per catalogued material entry, carbon uses the
spec's formula with discount 0.3, but energy multiplies the
already-discounted recycled factor by a further 0.4 (effective discount
0.12), water by a further 0.2 (effective discount 0.06), and cost
carries no recycled discount at all. -/
theorem material_step_impact_formulas (db : Database) (method : AllocationMethod)
    (materials : List MaterialEntry) (total_mass : ℚ) (acc : MaterialPhaseResult)
    (mat : MaterialEntry) (data : MaterialData)
    (h : db.get_material mat.material_id = some data) :
    ((materialPhaseStep db method materials total_mass acc mat).carbon_kgCO2e =
      acc.carbon_kgCO2e + mat.mass_kg * data.carbon_footprint *
        ((1 - mat.recycled_content) + mat.recycled_content * (3/10)) *
        allocationFactor db method materials total_mass mat.mass_kg data) ∧
    ((materialPhaseStep db method materials total_mass acc mat).energy_MJ =
      acc.energy_MJ + mat.mass_kg * data.embodied_energy *
        ((1 - mat.recycled_content) + mat.recycled_content * (3/10) * (4/10)) *
        allocationFactor db method materials total_mass mat.mass_kg data) ∧
    ((materialPhaseStep db method materials total_mass acc mat).water_L =
      acc.water_L + mat.mass_kg * data.water_use *
        ((1 - mat.recycled_content) + mat.recycled_content * (3/10) * (2/10)) *
        allocationFactor db method materials total_mass mat.mass_kg data) ∧
    ((materialPhaseStep db method materials total_mass acc mat).cost_usd =
      acc.cost_usd + mat.mass_kg * data.price *
        allocationFactor db method materials total_mass mat.mass_kg data) := by
  refine ⟨?_, ?_, ?_, ?_⟩ <;>
    simp [materialPhaseStep, h]

/-- Witness for C4 (amended) at the fully recycled PP entry:
the engine's energy is 85.6 × 0.12 = 10.272. -/
theorem material_step_impact_formulas_witness :
    (theDatabase.get_material "PP" = some ppMaterialData) ∧
    ((materialPhaseStep theDatabase AllocationMethod.mass
        [⟨"PP", 1, 1⟩] 1 initMaterialPhaseResult ⟨"PP", 1, 1⟩).energy_MJ = 1284/125) :=
  ⟨by simp [theDatabase],
   by
     have h2 := material_step_impact_formulas theDatabase AllocationMethod.mass
       [⟨"PP", 1, 1⟩] 1 initMaterialPhaseResult ⟨"PP", 1, 1⟩ ppMaterialData
       (by simp [theDatabase])
     rw [h2.2.1]
     norm_num [initMaterialPhaseResult, ppMaterialData, allocationFactor]⟩

/-- Counterexample to C4 as stated: with recycled content 1 the claimed
energy (discount 0.4 → 85.6 × 0.4 = 34.24) and cost (discount 0.8 →
1.8 × 0.8 = 1.44) differ from the engine's 10.272 and 1.8. -/
theorem material_discount_counterexample :
    ((calcMaterialPhase theDatabase fullyRecycledSpec).energy_MJ = 1284/125) ∧
    (specMaterialImpact 1 (856/10) 1 (4/10) = 4280/125) ∧
    ((1284/125 : ℚ) ≠ 4280/125) ∧
    ((calcMaterialPhase theDatabase fullyRecycledSpec).cost_usd = 18/10) ∧
    (specMaterialImpact 1 (18/10) 1 (8/10) = 36/25) ∧
    ((18/10 : ℚ) ≠ 36/25) := by
  refine ⟨?_, by norm_num [specMaterialImpact], by norm_num, ?_,
    by norm_num [specMaterialImpact], by norm_num⟩ <;>
    simp +decide [calcMaterialPhase, materialPhaseStep, initMaterialPhaseResult,
      totalMaterialMass, allocationFactor, theDatabase, ppMaterialData, dictInsert,
      fullyRecycledSpec, emptySpec] <;>
    norm_num

/-- Inserting a key that is absent from the dict appends the pair. -/
lemma dictInsert_fresh (d : List (String × ℚ)) (k : String) (v : ℚ)
    (h : ∀ p ∈ d, p.1 ≠ k) : dictInsert d k v = d ++ [(k, v)] := by
  have h2 : d.any (fun p => p.1 = k) = false := by
    rw [List.any_eq_false]
    intro p hp
    simpa using h p hp
  simp [dictInsert, h2]

/-- Appending a fresh pair adds its value to the dict sum. -/
lemma dictSum_append_single (d : List (String × ℚ)) (k : String) (v : ℚ) :
    dictSum (d ++ [(k, v)]) = dictSum d + v := by
  simp [dictSum]

/-- Every member of an insert is an old member or the new pair. -/
lemma mem_dictInsert (d : List (String × ℚ)) (k : String) (v : ℚ) (p : String × ℚ)
    (hp : p ∈ dictInsert d k v) : p ∈ d ∨ p = (k, v) := by
  unfold dictInsert at hp
  split at hp
  · simp only [List.mem_map] at hp
    obtain ⟨q, hq, hqe⟩ := hp
    by_cases hqk : q.1 = k
    · right
      rw [if_pos hqk] at hqe
      exact hqe.symm
    · left
      rw [if_neg hqk] at hqe
      rw [hqe.symm]
      exact hq
  · rcases List.mem_append.mp hp with hin | hnew
    · exact Or.inl hin
    · exact Or.inr (by simpa using hnew)

/-- With mass-based allocation, positive total mass, fresh and
catalogued ids, the fold adds mass/total per entry to the sum of the
allocation-factor dict. -/
lemma material_fold_allocation_sum (db : Database) (materials : List MaterialEntry)
    (total_mass : ℚ) (htm : 0 < total_mass) (l : List MaterialEntry) :
    ∀ acc : MaterialPhaseResult,
      (∀ m ∈ l, (db.get_material m.material_id).isSome) →
      ((l.map (fun m => m.material_id)).Nodup) →
      (∀ m ∈ l, ∀ p ∈ acc.allocation_factors, p.1 ≠ m.material_id) →
      dictSum ((l.foldl (materialPhaseStep db .mass materials total_mass)
          acc).allocation_factors) =
        dictSum acc.allocation_factors +
          (l.map (fun m => m.mass_kg)).sum / total_mass := by
  induction l with
  | nil => intro acc _ _ _; simp
  | cons m ms ih =>
      intro acc hknown hnodup hfresh
      obtain ⟨data, hdata⟩ :=
        Option.isSome_iff_exists.mp (hknown m (List.mem_cons_self m ms))
      have hstep : (materialPhaseStep db .mass materials total_mass acc
          m).allocation_factors =
          acc.allocation_factors ++ [(m.material_id, m.mass_kg / total_mass)] := by
        simp only [materialPhaseStep, hdata, allocationFactor, if_pos htm]
        exact dictInsert_fresh _ _ _
          (fun p hp => hfresh m (List.mem_cons_self m ms) p hp)
      have hmnotin : m.material_id ∉ ms.map (fun mm => mm.material_id) :=
        (List.nodup_cons.mp hnodup).1
      have hstepfresh : ∀ mm ∈ ms, ∀ p ∈ (materialPhaseStep db .mass materials
          total_mass acc m).allocation_factors, p.1 ≠ mm.material_id := by
        intro mm hmm p hp
        rw [hstep] at hp
        rcases List.mem_append.mp hp with hin | hnew
        · exact hfresh mm (List.mem_cons_of_mem m hmm) p hin
        · have hpm : p.1 = m.material_id := by
            have : p = (m.material_id, m.mass_kg / total_mass) := by simpa using hnew
            rw [this]
          rw [hpm]
          intro hcontra
          exact hmnotin (List.mem_map.mpr ⟨mm, hmm, hcontra.symm⟩)
      have hrec := ih (materialPhaseStep db .mass materials total_mass acc m)
        (fun mm hmm => hknown mm (List.mem_cons_of_mem m hmm))
        ((List.nodup_cons.mp hnodup).2) hstepfresh
      simp only [List.foldl_cons]
      rw [hrec, hstep, dictSum_append_single]
      simp only [List.map_cons, List.sum_cons]
      rw [add_div]
      ring

/-- Claim C5 (amended): when the allocation method is mass-based, every
material id resolves in the catalog, the ids are pairwise distinct and
the total mass is positive, the allocation factors recorded by the
material phase sum to exactly 1. -/
theorem mass_allocation_factors_sum_to_one (db : Database) (spec : ProductSpec)
    (hmethod : spec.allocation_method = AllocationMethod.mass)
    (hknown : ∀ m ∈ spec.materials, (db.get_material m.material_id).isSome)
    (hdistinct : (spec.materials.map (fun m => m.material_id)).Nodup)
    (hpos : 0 < totalMaterialMass spec.materials) :
    dictSum (calcMaterialPhase db spec).allocation_factors = 1 := by
  simp only [calcMaterialPhase, hmethod]
  rw [material_fold_allocation_sum db spec.materials (totalMaterialMass spec.materials)
    hpos spec.materials initMaterialPhaseResult hknown hdistinct
    (by intro m hm p hp; simp [initMaterialPhaseResult] at hp)]
  simp only [initMaterialPhaseResult, dictSum, List.map_nil, List.sum_nil, zero_add]
  exact div_self (ne_of_gt hpos)

/-- Witness for C5 (amended) at the single-PP specification. -/
theorem mass_allocation_factors_witness :
    (ppSpec.allocation_method = AllocationMethod.mass) ∧
    (∀ m ∈ ppSpec.materials, (theDatabase.get_material m.material_id).isSome) ∧
    ((ppSpec.materials.map (fun m => m.material_id)).Nodup) ∧
    (0 < totalMaterialMass ppSpec.materials) ∧
    dictSum (calcMaterialPhase theDatabase ppSpec).allocation_factors = 1 :=
  ⟨rfl, by simp [ppSpec, emptySpec, theDatabase], by simp [ppSpec, emptySpec],
   by norm_num [totalMaterialMass, ppSpec, emptySpec],
   mass_allocation_factors_sum_to_one theDatabase ppSpec rfl
     (by simp [ppSpec, emptySpec, theDatabase]) (by simp [ppSpec, emptySpec])
     (by norm_num [totalMaterialMass, ppSpec, emptySpec])⟩

/-- Counterexample to C5 as stated: one catalogued and one
non-catalogued material of equal positive mass; the skipped unknown
entry still counts in the total mass, so the recorded factors sum to
0.5, not 1. -/
theorem mass_allocation_factors_counterexample :
    (dictSum (calcMaterialPhase theDatabase
      mixedKnownUnknownSpec).allocation_factors = 1/2) ∧
    ((1/2 : ℚ) ≠ 1) := by
  refine ⟨?_, by norm_num⟩
  simp +decide [calcMaterialPhase, materialPhaseStep, initMaterialPhaseResult,
    totalMaterialMass, allocationFactor, theDatabase, ppMaterialData, dictInsert,
    dictSum, mixedKnownUnknownSpec, emptySpec]
  norm_num

/-- A fold over entries that all miss the catalog leaves the material
accumulator untouched. -/
lemma material_fold_all_unknown (db : Database) (method : AllocationMethod)
    (materials : List MaterialEntry) (total_mass : ℚ) (l : List MaterialEntry) :
    ∀ acc : MaterialPhaseResult,
      (∀ m ∈ l, db.get_material m.material_id = none) →
      l.foldl (materialPhaseStep db method materials total_mass) acc = acc := by
  induction l with
  | nil => intro acc _; rfl
  | cons m ms ih =>
      intro acc h
      simp only [List.foldl_cons]
      have hstep : materialPhaseStep db method materials total_mass acc m = acc := by
        simp [materialPhaseStep, h m (List.mem_cons_self m ms)]
      rw [hstep]
      exact ih acc (fun mm hmm => h mm (List.mem_cons_of_mem m hmm))

/-- Claim C6 (amended): entries whose id has no catalog entry are
skipped inside the material phase — contributing nothing to its sums,
detail list or factor dicts — and no warning exists: the data-quality
assessment is a constant, independent of the specification. (The
skipped entry's mass still enters the total mass read by the other
phases; see the counterexample.) -/
theorem unknown_materials_skipped_no_warning (db : Database) (spec : ProductSpec)
    (h : ∀ m ∈ spec.materials, db.get_material m.material_id = none) :
    calcMaterialPhase db spec = initMaterialPhaseResult ∧
    (∀ other : ProductSpec, assessDataQuality other = assessDataQuality spec) := by
  constructor
  · simp only [calcMaterialPhase]
    exact material_fold_all_unknown db spec.allocation_method spec.materials
      (totalMaterialMass spec.materials) spec.materials initMaterialPhaseResult h
  · intro other
    rfl

/-- Witness for C6 (amended) at the single unknown-id specification. -/
theorem unknown_materials_skipped_witness :
    (∀ m ∈ unknownMaterialSpec.materials,
      theDatabase.get_material m.material_id = none) ∧
    (calcMaterialPhase theDatabase unknownMaterialSpec = initMaterialPhaseResult ∧
     (∀ other : ProductSpec,
        assessDataQuality other = assessDataQuality unknownMaterialSpec)) :=
  ⟨by simp [unknownMaterialSpec, emptySpec, theDatabase],
   unknown_materials_skipped_no_warning theDatabase unknownMaterialSpec
     (by simp [unknownMaterialSpec, emptySpec, theDatabase])⟩

/-- Counterexample to C6 as stated: a specification whose only material
is unknown yields overall total carbon -0.94 (the unknown mass enters
the end-of-life computation), while removing the entry yields 0 — the
unknown entry does NOT contribute zero to all totals; and the result
holds no warning (see the amended theorem's constant assessment). -/
theorem unknown_material_contributes_counterexample :
    ((calculateComprehensiveLCA theDatabase indexStream unknownMaterialSpec
      ⟨42, 0⟩).1.totals.carbon_kgCO2e = -(47/50)) ∧
    ((calculateComprehensiveLCA theDatabase indexStream emptySpec
      ⟨42, 0⟩).1.totals.carbon_kgCO2e = 0) ∧
    ((-(47/50) : ℚ) ≠ 0) := by
  refine ⟨?_, ?_, by norm_num⟩ <;>
    simp +decide [calculateComprehensiveLCA, calcTotals, calcAllPhases, Phases.commons,
      MaterialPhaseResult.common, ManufacturingPhaseResult.common,
      TransportPhaseResult.common, UsePhaseResult.common, EolPhaseResult.common,
      SimplePhaseResult.common, calcMaterialPhase, materialPhaseStep,
      initMaterialPhaseResult, calcManufacturingPhase, calcTransportPhase,
      calcUsePhase, calcEolPhase, calcUpstreamImpacts, calcDownstreamImpacts,
      totalMaterialMass, theDatabase, unknownMaterialSpec, emptySpec,
      defaultEolScenario] <;>
    norm_num

/-- Each step of `accumSamples` consumes exactly one draw, so the fold
keeps the seed and advances the position by the list length. -/
lemma accumSamples_state {α : Type} (g : α → RngState → ℚ × RngState)
    (hg : ∀ (x : α) (s : RngState), (g x s).2 = ⟨s.seed, s.pos + 1⟩)
    (l : List α) :
    ∀ p : ℚ × RngState,
      (accumSamples g l p).2 = ⟨p.2.seed, p.2.pos + l.length⟩ := by
  induction l with
  | nil => intro p; simp [accumSamples]
  | cons x xs ih =>
      intro p
      simp only [accumSamples, List.foldl_cons] at ih ⊢
      rw [ih (p.1 + (g x p.2).1, (g x p.2).2)]
      simp [hg]
      omega

/-- State advance of one carbon sample: one draw per material, process
and transport leg. -/
lemma sampleCarbonFootprint_state (stream : NormalStream) (spec : ProductSpec)
    (s : RngState) :
    (sampleCarbonFootprint stream spec s).2 =
      ⟨s.seed, s.pos + spec.materials.length +
        spec.manufacturing_processes.length + spec.transport_legs.length⟩ := by
  simp only [sampleCarbonFootprint]
  rw [accumSamples_state _ (fun x s0 => rfl), accumSamples_state _ (fun x s0 => rfl),
    accumSamples_state _ (fun x s0 => rfl)]

/-- State advance of one energy sample: one draw per material. -/
lemma sampleEnergyUse_state (stream : NormalStream) (spec : ProductSpec)
    (s : RngState) :
    (sampleEnergyUse stream spec s).2 =
      ⟨s.seed, s.pos + spec.materials.length⟩ := by
  simp only [sampleEnergyUse]
  rw [accumSamples_state _ (fun x s0 => rfl)]

/-- State advance of one water sample: one draw per material. -/
lemma sampleWaterUse_state (stream : NormalStream) (spec : ProductSpec)
    (s : RngState) :
    (sampleWaterUse stream spec s).2 =
      ⟨s.seed, s.pos + spec.materials.length⟩ := by
  simp only [sampleWaterUse]
  rw [accumSamples_state _ (fun x s0 => rfl)]

/-- The Monte Carlo loop keeps the seed and advances the position by
(3·#materials + #processes + #legs) per iteration. -/
lemma mcLoop_state (stream : NormalStream) (spec : ProductSpec) :
    ∀ (n : ℕ) (d : MCDistributions) (s : RngState),
      (mcLoop stream spec n (d, s)).2 =
        ⟨s.seed, s.pos + n * (3 * spec.materials.length +
          spec.manufacturing_processes.length + spec.transport_legs.length)⟩ := by
  intro n
  induction n with
  | zero => intro d s; simp [mcLoop]
  | succ k ih =>
      intro d s
      rw [mcLoop]
      rw [ih]
      rw [sampleWaterUse_state, sampleEnergyUse_state, sampleCarbonFootprint_state]
      simp only [RngState.mk.injEq, true_and]
      ring

/-- Claim C3 (amended): the analyzer accepts no seed — its seed is the
constant 42 — and its generator state persists across calls: an
analysis run is a pure function of the generator state and the
specification, advancing the stream position by n_iterations ×
(3·#materials + #processes + #legs), so a rerun on the same instance
resumes where the previous run stopped. -/
theorem monte_carlo_seed_fixed_and_state_advance (stream : NormalStream) (n : ℕ)
    (spec : ProductSpec) (s : RngState) :
    (((UncertaintyAnalyzer.init n).monteCarloAnalysis stream spec s).2 =
      ⟨s.seed, s.pos + n * (3 * spec.materials.length +
        spec.manufacturing_processes.length + spec.transport_legs.length)⟩) ∧
    (UncertaintyAnalyzer.init n).rngSeed = 42 :=
  ⟨mcLoop_state stream spec n _ s, rfl⟩

/-- Counterexample to C3 as stated: the constructor's only parameter is
the iteration count — the generator seed is 42 whatever is passed — so
no explicit random seed is accepted; and on an explicit draw stream a
second run on the same analyzer instance resumes the persistent stream
and returns a different carbon distribution for the same
specification. -/
theorem monte_carlo_no_seed_counterexample :
    ((UncertaintyAnalyzer.init 1).rngSeed = 42) ∧
    ((UncertaintyAnalyzer.init 2).rngSeed = 42) ∧
    ((UncertaintyAnalyzer.init 10000).rngSeed = 42) ∧
    (((UncertaintyAnalyzer.init 1).monteCarloAnalysis indexStream ppSpec
        (UncertaintyAnalyzer.init 1).freshState).1.carbon_distribution ≠
      ((UncertaintyAnalyzer.init 1).monteCarloAnalysis indexStream ppSpec
        (((UncertaintyAnalyzer.init 1).monteCarloAnalysis indexStream ppSpec
          (UncertaintyAnalyzer.init 1).freshState).2)).1.carbon_distribution) := by
  refine ⟨rfl, rfl, rfl, ?_⟩
  simp +decide [UncertaintyAnalyzer.monteCarloAnalysis, UncertaintyAnalyzer.init,
    UncertaintyAnalyzer.freshState, mcLoop, sampleCarbonFootprint, sampleEnergyUse,
    sampleWaterUse, accumSamples, drawNormal, getMaterialWithUncertainty,
    sampleProcessCarbon, sampleTransportCarbon, indexStream, ppSpec, emptySpec]
  norm_num

end EcoLens
